import Mathlib

/-!
Verification development for the Dependency Explanation Assistant.

The Python sources are shallowly embedded: each Python function becomes a
Lean function over explicit data.  Python strings are modelled by `String`
with all primitive operations re-implemented structurally over `String.data`
(char lists) so that every definition evaluates inside the kernel.  Python
dicts that are only inserted into and looked up become association lists
with insert-overwrite semantics (`dictInsert` / `dictFind`).  The one
external network call of the explanation engine is modelled by an explicit
oracle argument `net : String → NetResult` enumerating every outcome the
code distinguishes (exception, status code, body shape, generated text).
The third-party requirement grammar (`packaging.requirements.Requirement`)
is likewise an explicit oracle argument for the general theorems, with a
concrete model `pkgRequirement` used for concrete test inputs.
-/

namespace DepAssist

/-- Build a string from a char list (inverse of `String.data`). -/
def chStr (l : List Char) : String := ⟨l⟩

/-- Python `str.strip()`: drop leading and trailing whitespace. -/
def strTrim (s : String) : String :=
  chStr (((s.data.dropWhile Char.isWhitespace).reverse.dropWhile Char.isWhitespace).reverse)

/-- Fuel-driven worker for `strSplitOn` (structural recursion on the fuel,
so that the kernel can evaluate it). -/
def splitGo (sep : List Char) : Nat → List Char → List Char → List (List Char)
  | 0, l, cur => [cur.reverse ++ l]
  | fuel + 1, l, cur =>
    match l with
    | [] => [cur.reverse]
    | c :: rest =>
      if sep.isPrefixOf l then
        cur.reverse :: splitGo sep fuel (l.drop sep.length) []
      else
        splitGo sep fuel rest (c :: cur)

/-- Python `str.split(sep)` for a non-empty separator, scanning left to
right, non-overlapping.  An empty separator yields the whole string. -/
def strSplitOn (s sep : String) : List String :=
  if sep.data.isEmpty then [s]
  else (splitGo sep.data (s.data.length + 1) s.data []).map chStr

/-- Python `sub in s`: substring containment (for non-empty `sub`). -/
def containsStr (s sub : String) : Bool :=
  (strSplitOn s sub).length != 1

/-- Python `str.lower()` (ASCII case folding, which covers all inputs the
program manipulates). -/
def strToLower (s : String) : String := chStr (s.data.map Char.toLower)

/-- Python `str.startswith(p)`. -/
def strStartsWith (s p : String) : Bool := p.data.isPrefixOf s.data

/-- Python emptiness test `not s`. -/
def strIsEmpty (s : String) : Bool := s.data.isEmpty

/-- The character-count length of a string (Python `len`). -/
def strLen (s : String) : Nat := s.data.length

/-- Python slicing `s[n:]` (by characters). -/
def strDrop (s : String) (n : Nat) : String := chStr (s.data.drop n)

/-- Longest prefix of the string whose characters satisfy `p`. -/
def strTakeWhile (p : Char → Bool) (s : String) : String := chStr (s.data.takeWhile p)

/-- Python `sep.join(l)`. -/
def strJoin (sep : String) (l : List String) : String :=
  chStr (List.intercalate sep.data (l.map String.data))

/-- Association-list lookup, modelling Python dict indexing / `in`. -/
def dictFind {α : Type} (m : List (String × α)) (k : String) : Option α :=
  match m with
  | [] => none
  | (k', v) :: rest => if k' = k then some v else dictFind rest k

/-- Association-list insert with overwrite, modelling Python dict
assignment `m[k] = v` (the key keeps its original position). -/
def dictInsert {α : Type} (m : List (String × α)) (k : String) (v : α) :
    List (String × α) :=
  match m with
  | [] => [(k, v)]
  | (k', v') :: rest => if k' = k then (k, v) :: rest else (k', v') :: dictInsert rest k v

/-- Outcome of the third-party requirement grammar
(`packaging.requirements.Requirement`) on one line: on success, the
normalised projections the code reads (`req.name`, `str(req.specifier)`,
`list(req.extras)`, `str(req.marker)`); on failure, the stringified
exception.  The repository code is parametric in this oracle. -/
structure ReqParsed where
  name : String
  specifier : String
  extras : List String
  marker : String
deriving Repr, DecidableEq

/-- One parsed dependency record (the dicts built by
`DependencyParser.parse_requirements_text`). -/
structure DepRecord where
  package : String
  specifier : String
  extras : List String
  marker : String
  original : String
  conflict : Option String
deriving Repr, DecidableEq

/-- Heuristic package-name recovery for malformed lines
(`line.split('==')[0].split('>=')[0].split('<=')[0].split('[')[0].strip()`). -/
def truncAt (line : String) : String :=
  let s1 := (strSplitOn line "==").headD ""
  let s2 := (strSplitOn s1 ">=").headD ""
  let s3 := (strSplitOn s2 "<=").headD ""
  let s4 := (strSplitOn s3 "[").headD ""
  strTrim s4

/-- Loop state of `parse_requirements_text`: the output list, the
`seen_packages` dict, and an instrumentation counter for the silently
skipped exact-duplicate branch (the bare `continue`). -/
structure ParseState where
  deps : List DepRecord
  seen : List (String × DepRecord)
  skipped : Nat
deriving Repr

/-- One iteration of the `parse_requirements_text` loop body on an already
comment-stripped, non-blank line, parametric in the requirement-grammar
oracle `Req`. -/
def lineStep (Req : String → Except String ReqParsed) (st : ParseState)
    (line : String) : ParseState :=
  match Req line with
  | .ok req =>
    let package_name := strToLower req.name
    match dictFind st.seen package_name with
    | some existing =>
      if existing.specifier ≠ req.specifier then
        { st with deps := st.deps ++
            [{ package := package_name, specifier := req.specifier,
               extras := req.extras, marker := req.marker, original := line,
               conflict := some ("Duplicate: " ++ existing.original ++ " vs " ++ line) }] }
      else
        { st with skipped := st.skipped + 1 }
    | none =>
      let dep : DepRecord :=
        { package := package_name, specifier := req.specifier,
          extras := req.extras, marker := req.marker, original := line,
          conflict := none }
      { st with deps := st.deps ++ [dep], seen := st.seen ++ [(package_name, dep)] }
  | .error e =>
    { st with deps := st.deps ++
        [{ package := truncAt line, specifier := "", extras := [], marker := "",
           original := line, conflict := some ("Parse error: " ++ e) }] }

/-- Strip an inline `#` comment (only applied to lines not starting with
`#`), as in the source: `if '#' in line: line = line[:line.index('#')].strip()`. -/
def stripComment (line : String) : String :=
  if containsStr line "#" then strTrim ((strSplitOn line "#").headD "") else line

/-- The lines the parser loop actually processes: strip the text, split on
newlines, strip each line, drop blanks and `#`-comment lines, strip inline
comments. -/
def processLines (text : String) : List String :=
  ((strSplitOn (strTrim text) "\n").map strTrim).filterMap fun l =>
    if strIsEmpty l || strStartsWith l "#" then none
    else some (stripComment l)

/-- The full loop of `parse_requirements_text`, keeping the final state. -/
def parseRun (Req : String → Except String ReqParsed) (text : String) : ParseState :=
  (processLines text).foldl (lineStep Req) ⟨[], [], 0⟩

/-- `DependencyParser.parse_requirements_text`, parametric in the
requirement-grammar oracle. -/
def parse_requirements_text (Req : String → Except String ReqParsed)
    (text : String) : List DepRecord :=
  (parseRun Req text).deps

/-- Name extraction of `parse_library_list`:
`re.split(r'[<>=!]', line)[0].strip()` then `re.split(r'\x5c[', ...)[0].strip()`. -/
def libNameOf (line : String) : String :=
  let p1 := strTrim (strTakeWhile
    (fun c => !(c = '<' || c = '>' || c = '=' || c = '!')) line)
  strTrim (strTakeWhile (fun c => !(c = '[')) p1)

/-- One iteration of the `parse_library_list` loop body. -/
def libStep (deps : List DepRecord) (line : String) : List DepRecord :=
  if strIsEmpty line || strStartsWith line "#" then deps
  else
    let package_name := libNameOf line
    if strIsEmpty package_name then deps
    else deps ++
      [{ package := strToLower package_name, specifier := "", extras := [],
         marker := "", original := package_name, conflict := none }]

/-- `DependencyParser.parse_library_list`. -/
def parse_library_list (text : String) : List DepRecord :=
  ((strSplitOn (strTrim text) "\n").map strTrim).foldl libStep []

/-- Node projection stored in the graph's `nodes` dict. -/
structure GraphNode where
  specifier : String
  extras : List String
  marker : String
  conflict : Option String
deriving Repr, DecidableEq

/-- One entry of the graph's `conflicts` list. -/
structure ConflictEntry where
  package : String
  reason : String
deriving Repr, DecidableEq

/-- The dependency graph built by `ConflictDetector.build_dependency_graph`.
`edges` is populated nowhere in the source. -/
structure DepGraph where
  nodes : List (String × GraphNode)
  edges : List (String × String)
  conflicts : List ConflictEntry
deriving Repr

/-- The node projection of one record. -/
def projNode (dep : DepRecord) : GraphNode :=
  { specifier := dep.specifier, extras := dep.extras, marker := dep.marker,
    conflict := dep.conflict }

/-- One iteration of the `build_dependency_graph` loop:
`graph['nodes'][package] = ...` then, when the record's `conflict` value is
truthy (a non-empty string), append to `graph['conflicts']`. -/
def graphStep (g : DepGraph) (dep : DepRecord) : DepGraph :=
  let g' : DepGraph := { g with nodes := dictInsert g.nodes dep.package (projNode dep) }
  if strIsEmpty (dep.conflict.getD "") then g'
  else { g' with conflicts := g'.conflicts ++ [⟨dep.package, dep.conflict.getD ""⟩] }

/-- `ConflictDetector.build_dependency_graph`. -/
def build_dependency_graph (dependencies : List DepRecord) : DepGraph :=
  dependencies.foldl graphStep { nodes := [], edges := [], conflicts := [] }

/-- One issue dict produced by `ConflictDetector.check_compatibility`.
Optional fields mirror the keys each branch actually sets. -/
structure Issue where
  type : Option String
  package : Option String
  packages : Option (List String)
  message : Option String
  severity : Option String
  details : Option (List (String × String))
deriving Repr, DecidableEq

/-- The `duplicate` issue for one parse-time conflict entry. -/
def dupIssue (conflict : ConflictEntry) : Issue :=
  { type := some "duplicate", package := some conflict.package, packages := none,
    message := some ("Conflict in " ++ conflict.package ++ ": " ++ conflict.reason),
    severity := some "high", details := none }

/-- The pytorch-lightning / torch pairwise rule of `check_compatibility`. -/
def plTorchIssues (nodes : List (String × GraphNode)) : List Issue :=
  match dictFind nodes "pytorch-lightning", dictFind nodes "torch" with
  | some pl, some t =>
    if (containsStr pl.specifier "==2." || containsStr pl.specifier ">=2.") &&
        (containsStr t.specifier "==1." ||
          (containsStr t.specifier "<2." && containsStr t.specifier "==1.")) then
      [{ type := some "version_incompatibility", package := none,
         packages := some ["pytorch-lightning", "torch"],
         message := some "pytorch-lightning>=2.0 requires torch>=2.0, but torch<2.0 is specified",
         severity := some "high",
         details := some [("pytorch-lightning", pl.specifier), ("torch", t.specifier)] }]
    else []
  | _, _ => []

/-- The fastapi / pydantic pairwise rule of `check_compatibility`. -/
def fastapiPydanticIssues (nodes : List (String × GraphNode)) : List Issue :=
  match dictFind nodes "fastapi", dictFind nodes "pydantic" with
  | some fa, some pd =>
    if (containsStr fa.specifier "==0.78" || containsStr fa.specifier "==0.7") &&
        (containsStr pd.specifier "==2." || containsStr pd.specifier ">=2.") then
      [{ type := some "version_incompatibility", package := none,
         packages := some ["fastapi", "pydantic"],
         message := some "fastapi==0.78.x requires pydantic v1, but pydantic v2 is specified",
         severity := some "high",
         details := some [("fastapi", fa.specifier), ("pydantic", pd.specifier)] }]
    else []
  | _, _ => []

/-- The tensorflow / keras pairwise rule of `check_compatibility`. -/
def tfKerasIssues (nodes : List (String × GraphNode)) : List Issue :=
  match dictFind nodes "tensorflow", dictFind nodes "keras" with
  | some tf, some ke =>
    if containsStr tf.specifier "==1." &&
        (containsStr ke.specifier "==3." || containsStr ke.specifier ">=3.") then
      [{ type := some "version_incompatibility", package := none,
         packages := some ["tensorflow", "keras"],
         message := some "keras>=3.0 requires TensorFlow 2.x, but TensorFlow 1.x is specified",
         severity := some "high",
         details := some [("tensorflow", tf.specifier), ("keras", ke.specifier)] }]
    else []
  | _, _ => []

/-- `ConflictDetector.check_compatibility`: duplicate issues in conflict
order, then the three pairwise rules in source order; `all_clear` is the
emptiness of the issue list. -/
def check_compatibility (graph : DepGraph) : Bool × List Issue :=
  let issues := graph.conflicts.map dupIssue ++ plTorchIssues graph.nodes ++
    fastapiPydanticIssues graph.nodes ++ tfKerasIssues graph.nodes
  (issues.length == 0, issues)

/-- Characters admitted in a package name by the requirement grammar. -/
def isNameChar (c : Char) : Bool := c.isAlphanum || c = '-' || c = '_' || c = '.'

/-- Characters admitted in a version literal by the requirement grammar. -/
def isVersionChar (c : Char) : Bool :=
  c.isAlphanum || c = '.' || c = '*' || c = '+' || c = '-' || c = '_' || c = '!'

/-- The version-comparison operators of the requirement grammar. -/
def specOps : List String := ["===", "==", "!=", "<=", ">=", "~=", "<", ">"]

/-- Remove every whitespace character (specifier normalisation). -/
def stripWs (s : String) : String := chStr (s.data.filter fun c => !c.isWhitespace)

/-- Whether one comma-separated, whitespace-stripped specifier clause is a
valid operator followed by a version literal. -/
def validClause (c : String) : Bool :=
  specOps.any fun op =>
    strStartsWith c op &&
    (let v := strDrop c (strLen op)
     !(strIsEmpty v) && v.data.all isVersionChar)

/-- Modelled from the spec: the third-party requirement grammar
(`packaging.requirements.Requirement`), which is not part of this
repository's sources.  Per the spec it parses a line into a name, optional
extras in brackets, an optional version-specifier clause and an optional
environment marker clause, and raises on malformed requirement syntax.
Success carries the string projections the repository reads. -/
def pkgRequirement (line : String) : Except String ReqParsed :=
  let reqPart := strTrim ((strSplitOn line ";").headD "")
  let markerStr :=
    if containsStr line ";" then
      strTrim (strDrop line (strLen ((strSplitOn line ";").headD "") + 1))
    else ""
  let name := strTakeWhile isNameChar reqPart
  if strIsEmpty name then
    .error ("Expected package name at the start of dependency specifier: " ++ line)
  else
    let rest := strTrim (strDrop reqPart (strLen name))
    let finish := fun (extras : List String) (specPart : String) =>
      if strIsEmpty specPart then
        Except.ok (⟨name, "", extras, markerStr⟩ : ReqParsed)
      else
        let clauses := (strSplitOn specPart ",").map stripWs
        if clauses.all validClause then
          Except.ok (⟨name, strJoin "," clauses, extras, markerStr⟩ : ReqParsed)
        else Except.error ("Invalid requirement, parse error at specifier: " ++ specPart)
    if strStartsWith rest "[" then
      if containsStr rest "]" then
        let inner := (strSplitOn (strDrop rest 1) "]").headD ""
        let extras := ((strSplitOn inner ",").map strTrim).filter fun e => !(strIsEmpty e)
        finish extras (strTrim (strDrop rest (strLen inner + 2)))
      else Except.error ("Invalid requirement, unclosed extras bracket: " ++ line)
    else finish [] rest

/-- One element of the JSON array the service may return, as the code
distinguishes them: a dict with a `generated_text` string, a dict without
one (`.get` yields the empty default), or a non-dict (`.get` raises). -/
inductive JItem where
  | withText (s : String)
  | withoutText
  | notDict
deriving Repr, DecidableEq

/-- Shape of the response body: a JSON list, some other JSON value, or a
body on which `.json()` itself raises. -/
inductive RespBody where
  | listJson (items : List JItem)
  | nonListJson
  | jsonError
deriving Repr, DecidableEq

/-- Outcome of the HTTP POST: a raised exception (timeout, connection
failure, ...) or a response with a status code and a body. -/
inductive NetResult where
  | exn (msg : String)
  | resp (status : Nat) (body : RespBody)
deriving Repr, DecidableEq

/-- `ExplanationEngine._fallback_explanation`: the deterministic
signature-matched paragraph (keyword checks on the lower-cased prompt, in
source order). -/
def fallback_explanation (prompt : String) : String :=
  let p := strToLower prompt
  if containsStr p "pytorch-lightning" && containsStr p "torch" then
    "PyTorch Lightning 2.0+ requires PyTorch 2.0 or higher because it uses new PyTorch APIs and features that don't exist in version 1.x. The conflict happens because you're trying to use a newer version of PyTorch Lightning with an older version of PyTorch. To fix this, either upgrade PyTorch to 2.0+ or downgrade PyTorch Lightning to 1.x."
  else if containsStr p "fastapi" && containsStr p "pydantic" then
    "FastAPI 0.78.x was built for Pydantic v1, which has a different API than Pydantic v2. The conflict occurs because Pydantic v2 introduced breaking changes that FastAPI 0.78 doesn't support. To fix this, either upgrade FastAPI to 0.99+ (which supports Pydantic v2) or downgrade Pydantic to v1.x."
  else if containsStr p "tensorflow" && containsStr p "keras" then
    "Keras 3.0+ requires TensorFlow 2.x because it was redesigned to work with TensorFlow 2's eager execution and new features. TensorFlow 1.x uses a different execution model that Keras 3.0 doesn't support. To fix this, upgrade TensorFlow to 2.x or downgrade Keras to 2.x."
  else if containsStr p "duplicate" then
    "You have the same package specified multiple times with different versions. This creates ambiguity about which version should be installed. To fix this, remove duplicate entries and keep only one version specification per package."
  else
    "This dependency conflict occurs due to incompatible version requirements between packages. Review the version constraints and ensure all packages are compatible with each other. Consider updating to compatible versions or using a dependency resolver."

/-- `ExplanationEngine._call_llm`, with the network modelled by the oracle
`net`.  The second component records whether the HTTP POST was issued; the
source issues it unconditionally (the flag `use_local_llm` is stored by
`__init__` but read nowhere), so it is `true` on every path. -/
def call_llm (use_local_llm : Bool) (net : String → NetResult) (prompt : String) :
    String × Bool :=
  let _unused := use_local_llm
  let result := net prompt
  let text :=
    match result with
    | .exn _ => fallback_explanation prompt
    | .resp status body =>
      if status == 200 then
        match body with
        | .listJson (item :: _) =>
          (match item with
           | .withText s => if strIsEmpty s then fallback_explanation prompt else strTrim s
           | .withoutText => fallback_explanation prompt
           | .notDict => fallback_explanation prompt)
        | .listJson [] => fallback_explanation prompt
        | .nonListJson => fallback_explanation prompt
        | .jsonError => fallback_explanation prompt
      else fallback_explanation prompt
  (text, true)

/-- `conflict.get('packages', [conflict.get('package', 'unknown')])`. -/
def issuePackages (conflict : Issue) : List String :=
  match conflict.packages with
  | some ps => ps
  | none => [conflict.package.getD "unknown"]

/-- Python `json.dumps` on a string-to-string dict (insertion order). -/
def jsonDumps (kvs : List (String × String)) : String :=
  "\x7b" ++ strJoin ", " (kvs.map fun kv => "\"" ++ kv.1 ++ "\": \"" ++ kv.2 ++ "\"") ++ "\x7d"

/-- `ExplanationEngine._create_prompt`. -/
def create_prompt (conflict : Issue) (dependencies : List DepRecord) : String :=
  let conflict_type := conflict.type.getD "unknown"
  let packages := issuePackages conflict
  let message := conflict.message.getD ""
  let details := conflict.details.getD []
  let relevant_deps := dependencies.filter fun d => packages.contains d.package
  let base := "You are a Python dependency expert. Explain this dependency conflict clearly:\n\nConflict: " ++
    message ++ "\nType: " ++ conflict_type ++ "\nPackages involved: " ++
    strJoin ", " packages ++ "\n\nDependency details:\n"
  let withDeps := relevant_deps.foldl
    (fun p dep => p ++ "- " ++ dep.package ++ ": " ++
      (if strIsEmpty dep.specifier then "no version specified" else dep.specifier) ++ "\n")
    base
  let withDetails :=
    if details.isEmpty then withDeps
    else withDeps ++ "\nVersion constraints: " ++ jsonDumps details ++ "\n"
  withDetails ++ "\nProvide a clear, concise explanation that:\n1. Explains what the conflict is in simple terms\n2. Explains why this conflict happens (technical reason)\n3. Suggests how to fix it (specific version recommendations)\n\nKeep it under 150 words and use plain language.\n"

/-- Trigger words of `_extract_why`. -/
def whyWords : List String := ["because", "due to", "requires", "needs", "since"]

/-- Trigger words of `_extract_fix`. -/
def fixWords : List String := ["upgrade", "downgrade", "fix", "change", "update", "remove"]

/-- `ExplanationEngine._extract_why`. -/
def extract_why (explanation : String) : String :=
  let sentences := strSplitOn explanation "."
  let why_sentences := sentences.filterMap fun s =>
    if whyWords.any (fun word => containsStr (strToLower s) word) then some (strTrim s)
    else none
  if why_sentences.isEmpty then "Version constraints are incompatible."
  else strJoin ". " (why_sentences.take 2) ++ "."

/-- `ExplanationEngine._extract_fix`. -/
def extract_fix (explanation : String) : String :=
  let sentences := strSplitOn explanation "."
  let fix_sentences := sentences.filterMap fun s =>
    if fixWords.any (fun word => containsStr (strToLower s) word) then some (strTrim s)
    else none
  if fix_sentences.isEmpty then "Adjust version constraints to compatible versions."
  else strJoin ". " (fix_sentences.take 2) ++ "."

/-- The structured result of `generate_explanation`. -/
structure Explanation where
  summary : String
  explanation : String
  why_it_happens : String
  how_to_fix : String
  packages_involved : List String
  severity : String
deriving Repr, DecidableEq

/-- `ExplanationEngine.generate_explanation`, parametric in the network
oracle and carrying the engine's stored `use_local_llm` flag. -/
def generate_explanation (use_local_llm : Bool) (net : String → NetResult)
    (conflict : Issue) (dependencies : List DepRecord) : Explanation :=
  let packages := issuePackages conflict
  let message := conflict.message.getD ""
  let prompt := create_prompt conflict dependencies
  let explanation_text := (call_llm use_local_llm net prompt).1
  { summary := message, explanation := explanation_text,
    why_it_happens := extract_why explanation_text,
    how_to_fix := extract_fix explanation_text,
    packages_involved := packages,
    severity := conflict.severity.getD "medium" }

/-- Failure predicate on a network outcome: everything except an HTTP 200
response whose body is a JSON list whose first element carries a non-empty
`generated_text`. -/
def netFails : NetResult → Bool
  | .exn _ => true
  | .resp status body =>
    if status == 200 then
      match body with
      | .listJson (.withText s :: _) => strIsEmpty s
      | .listJson (.withoutText :: _) => true
      | .listJson (.notDict :: _) => true
      | .listJson [] => true
      | .nonListJson => true
      | .jsonError => true
    else true

/-- Index of the first occurrence of `pat` in a char list, if any. -/
def findSubIdx (pat : List Char) : List Char → Option Nat
  | [] => if pat.isEmpty then some 0 else none
  | c :: rest =>
    if pat.isPrefixOf (c :: rest) then some 0
    else (findSubIdx pat rest).map (· + 1)

/-- Stated from the claim's words, for comparison with the source's
`truncAt`: truncate the line at the earliest occurrence of any of `==`,
`>=`, `<=`, `[`, then strip whitespace. -/
def specTruncateAtFirst (line : String) : String :=
  let idxs := ["==", ">=", "<=", "["].filterMap fun pat => findSubIdx pat.data line.data
  match idxs.min? with
  | some i => strTrim (chStr (line.data.take i))
  | none => strTrim line

/-- Stated from the claim's words, for comparison with the source's
extraction helpers: split the explanation into sentences on `.`, keep the
first two sentences containing any trigger word, strip them and join them
with `. ` plus a trailing `.`, or return the default when none match. -/
def spec_extract (triggers : List String) (dflt : String) (explanation : String) : String :=
  let sentences := strSplitOn explanation "."
  let matched := ((sentences.filter fun s =>
    triggers.any fun w => containsStr (strToLower s) w).take 2).map strTrim
  if matched.isEmpty then dflt
  else strJoin ". " matched ++ "."

/-! ### Helper lemmas -/

theorem graphStep_nodes (g : DepGraph) (dep : DepRecord) :
    (graphStep g dep).nodes = dictInsert g.nodes dep.package (projNode dep) := by
  simp only [graphStep]
  split <;> rfl

theorem graphStep_conflicts (g : DepGraph) (dep : DepRecord) :
    (graphStep g dep).conflicts =
      (if strIsEmpty (dep.conflict.getD "") then g.conflicts
       else g.conflicts ++ [⟨dep.package, dep.conflict.getD ""⟩]) := by
  simp only [graphStep]
  split <;> rfl

theorem foldl_graphStep_nodes :
    ∀ (deps : List DepRecord) (g : DepGraph),
      (deps.foldl graphStep g).nodes =
        deps.foldl (fun m d => dictInsert m d.package (projNode d)) g.nodes
  | [], _ => rfl
  | d :: ds, g => by
    rw [List.foldl_cons, List.foldl_cons, foldl_graphStep_nodes ds, graphStep_nodes]

theorem dictFind_insert {α : Type} (m : List (String × α)) (k k' : String) (v : α) :
    dictFind (dictInsert m k v) k' = if k = k' then some v else dictFind m k' := by
  induction m with
  | nil => rfl
  | cons kv rest ih =>
    obtain ⟨k₀, v₀⟩ := kv
    by_cases h : k₀ = k
    · subst h
      by_cases h' : k₀ = k'
      · subst h'
        simp [dictInsert, dictFind]
      · simp [dictInsert, dictFind, h']
    · by_cases h' : k₀ = k'
      · subst h'
        have hk : ¬ k = k₀ := fun hh => h hh.symm
        simp [dictInsert, dictFind, h, hk]
      · simp [dictInsert, dictFind, h, h', ih]

theorem dictFind_foldl_insert (deps : List DepRecord) :
    ∀ (m : List (String × GraphNode)) (name : String),
      dictFind (deps.foldl (fun m d => dictInsert m d.package (projNode d)) m) name =
        (match deps.reverse.find? (fun d => d.package == name) with
         | some d => some (projNode d)
         | none => dictFind m name) := by
  induction deps with
  | nil => intro m name; rfl
  | cons d ds ih =>
    intro m name
    rw [List.foldl_cons, ih, List.reverse_cons, List.find?_append]
    cases h : ds.reverse.find? (fun d => d.package == name) with
    | some d' => simp
    | none =>
      by_cases hd : d.package = name
      · simp [List.find?, hd, dictFind_insert]
      · have hd' : (d.package == name) = false := by
          simp [hd]
        simp [List.find?, hd', dictFind_insert, hd]

/-- C2 counterexample: for the two-record sequence `pandas ==2.0.3` (first)
then `pandas ==1.5.0` (duplicate), the graph's `pandas` node is the node
projection of the SECOND (last) record, which differs from the first
record's projection — refuting the claim that the first occurrence is the
authoritative node entry. -/
theorem c2_counterexample_first_not_kept :
    dictFind (build_dependency_graph
      [{ package := "pandas", specifier := "==2.0.3", extras := [], marker := "",
         original := "pandas==2.0.3", conflict := none },
       { package := "pandas", specifier := "==1.5.0", extras := [], marker := "",
         original := "pandas==1.5.0",
         conflict := some "Duplicate: pandas==2.0.3 vs pandas==1.5.0" }]).nodes "pandas" =
      some { specifier := "==1.5.0", extras := [], marker := "",
             conflict := some "Duplicate: pandas==2.0.3 vs pandas==1.5.0" } ∧
    ({ specifier := "==1.5.0", extras := [], marker := "",
       conflict := some "Duplicate: pandas==2.0.3 vs pandas==1.5.0" } : GraphNode) ≠
      { specifier := "==2.0.3", extras := [], marker := "", conflict := none } :=
  ⟨rfl, by decide⟩

/-- C2 (amended): for every record sequence and name, the graph produced by
`build_dependency_graph` maps that name to the node projection of the LAST
record bearing that name (later duplicate records overwrite the node
entry), and to nothing when no record bears the name. -/
theorem c2_node_is_last_occurrence (dependencies : List DepRecord) (name : String) :
    dictFind (build_dependency_graph dependencies).nodes name =
      Option.map projNode (dependencies.reverse.find? fun d => d.package == name) := by
  unfold build_dependency_graph
  rw [foldl_graphStep_nodes, dictFind_foldl_insert]
  cases h : dependencies.reverse.find? (fun d => d.package == name) <;>
    simp [dictFind]

/-- C4: the two-line input `pandas==2.0.3` then `pandas==1.5.0` yields
exactly two records, the second carrying the conflict annotation
`Duplicate: pandas==2.0.3 vs pandas==1.5.0` while the first is unchanged;
the identical line twice yields exactly one record with no conflict. -/
theorem c4_duplicate_detection :
    parse_requirements_text pkgRequirement "pandas==2.0.3\npandas==1.5.0" =
      [{ package := "pandas", specifier := "==2.0.3", extras := [], marker := "",
         original := "pandas==2.0.3", conflict := none },
       { package := "pandas", specifier := "==1.5.0", extras := [], marker := "",
         original := "pandas==1.5.0",
         conflict := some "Duplicate: pandas==2.0.3 vs pandas==1.5.0" }] ∧
    parse_requirements_text pkgRequirement "pandas==2.0.3\npandas==2.0.3" =
      [{ package := "pandas", specifier := "==2.0.3", extras := [], marker := "",
         original := "pandas==2.0.3", conflict := none }] :=
  ⟨rfl, rfl⟩

theorem build_nodes_isSome (deps : List DepRecord) (name : String) :
    (dictFind (build_dependency_graph deps).nodes name).isSome = true ↔
      name ∈ deps.map DepRecord.package := by
  unfold build_dependency_graph
  rw [foldl_graphStep_nodes, dictFind_foldl_insert]
  cases h : deps.reverse.find? (fun d => d.package == name) with
  | some d =>
    have hp := List.find?_some h
    have hm := List.mem_of_find?_eq_some h
    rw [List.mem_reverse] at hm
    rw [beq_iff_eq] at hp
    simp only [Option.isSome_some, true_iff]
    exact hp ▸ List.mem_map_of_mem DepRecord.package hm
  | none =>
    simp only [dictFind, Option.isSome_none]
    constructor
    · intro hcontra
      simp at hcontra
    · intro hmem
      obtain ⟨d, hd, hdp⟩ := List.mem_map.mp hmem
      have hnot := List.find?_eq_none.mp h d (List.mem_reverse.mpr hd)
      simp [hdp] at hnot

theorem foldl_graphStep_conflicts :
    ∀ (deps : List DepRecord) (g : DepGraph),
      (deps.foldl graphStep g).conflicts =
        g.conflicts ++ (deps.filter fun d => !strIsEmpty (d.conflict.getD "")).map
          (fun d => ⟨d.package, d.conflict.getD ""⟩)
  | [], g => by simp
  | d :: ds, g => by
    rw [List.foldl_cons, foldl_graphStep_conflicts ds]
    cases h : strIsEmpty (d.conflict.getD "") with
    | true => rw [graphStep_conflicts]; simp [h, List.filter_cons]
    | false => rw [graphStep_conflicts]; simp [h, List.filter_cons]

/-- C9: the node keys of the graph built by `build_dependency_graph` are
exactly the package values of the input records, and every entry of
`graph.conflicts` names a package present among the node keys. -/
theorem c9_graph_invariants (dependencies : List DepRecord) :
    (∀ name : String,
      (dictFind (build_dependency_graph dependencies).nodes name).isSome = true ↔
        name ∈ dependencies.map DepRecord.package) ∧
    (∀ c ∈ (build_dependency_graph dependencies).conflicts,
      (dictFind (build_dependency_graph dependencies).nodes c.package).isSome = true) := by
  refine ⟨fun name => build_nodes_isSome dependencies name, fun c hc => ?_⟩
  rw [build_nodes_isSome]
  unfold build_dependency_graph at hc
  rw [foldl_graphStep_conflicts] at hc
  simp only [List.nil_append] at hc
  obtain ⟨d, hd, rfl⟩ := List.mem_map.mp hc
  exact List.mem_map_of_mem DepRecord.package (List.mem_of_mem_filter hd)

/-- Witness for C9: in the one-record run whose record carries a duplicate
conflict annotation, the conflict entry's package is a node key. -/
theorem c9_graph_invariants_witness :
    (dictFind (build_dependency_graph
      [{ package := "pandas", specifier := "==1.5.0", extras := [], marker := "",
         original := "pandas==1.5.0",
         conflict := some "Duplicate: pandas==2.0.3 vs pandas==1.5.0" }]).nodes
      "pandas").isSome = true :=
  (c9_graph_invariants
    [{ package := "pandas", specifier := "==1.5.0", extras := [], marker := "",
       original := "pandas==1.5.0",
       conflict := some "Duplicate: pandas==2.0.3 vs pandas==1.5.0" }]).2
    ⟨"pandas", "Duplicate: pandas==2.0.3 vs pandas==1.5.0"⟩ (by decide)

theorem lineStep_shape (Req : String → Except String ReqParsed) (st : ParseState)
    (line : String) :
    (∃ r : DepRecord, r.original = line ∧
       (lineStep Req st line).deps = st.deps ++ [r] ∧
       (lineStep Req st line).skipped = st.skipped) ∨
    ((lineStep Req st line).deps = st.deps ∧
       (lineStep Req st line).skipped = st.skipped + 1) := by
  cases hr : Req line with
  | error e =>
    refine Or.inl
      ⟨⟨truncAt line, "", [], "", line, some ("Parse error: " ++ e)⟩, rfl, ?_, ?_⟩ <;>
      simp [lineStep, hr]
  | ok req =>
    cases hf : dictFind st.seen (strToLower req.name) with
    | none =>
      refine Or.inl
        ⟨⟨strToLower req.name, req.specifier, req.extras, req.marker, line, none⟩,
          rfl, ?_, ?_⟩ <;>
        simp [lineStep, hr, hf]
    | some existing =>
      by_cases hs : existing.specifier = req.specifier
      · refine Or.inr ⟨?_, ?_⟩ <;> simp [lineStep, hr, hf, hs]
      · refine Or.inl
          ⟨⟨strToLower req.name, req.specifier, req.extras, req.marker, line,
            some ("Duplicate: " ++ existing.original ++ " vs " ++ line)⟩, rfl, ?_, ?_⟩ <;>
          simp [lineStep, hr, hf, hs]

theorem parse_fold_shape (Req : String → Except String ReqParsed) :
    ∀ (lines : List String) (st : ParseState),
      ((lines.foldl (lineStep Req) st).deps.length + (lines.foldl (lineStep Req) st).skipped
          = st.deps.length + st.skipped + lines.length) ∧
      (∃ suffix : List DepRecord,
        (lines.foldl (lineStep Req) st).deps = st.deps ++ suffix ∧
        List.Sublist (suffix.map DepRecord.original) lines)
  | [], st => by simp [List.Sublist.refl]
  | l :: ls, st => by
    rw [List.foldl_cons]
    obtain ⟨hcount, suffix, hdeps, hsub⟩ := parse_fold_shape Req ls (lineStep Req st l)
    rcases lineStep_shape Req st l with ⟨r, hro, hd, hk⟩ | ⟨hd, hk⟩
    · refine ⟨?_, [r] ++ suffix, ?_, ?_⟩
      · rw [hcount, hd, hk]
        simp only [List.length_append, List.length_cons, List.length_nil]
        omega
      · rw [hdeps, hd, List.append_assoc]
      · simpa [hro] using List.Sublist.cons₂ l hsub
    · refine ⟨?_, suffix, ?_, ?_⟩
      · rw [hcount, hd, hk]
        simp only [List.length_cons]
        omega
      · rw [hdeps, hd]
      · exact List.Sublist.cons l hsub

/-- C3: the number of records returned by `parse_requirements_text` plus
the number of silently skipped exact duplicates equals the number of
processed (non-blank, non-comment) lines — equivalently, the record count
is the line count minus the skip count — and the kept records appear in
input line order (their source lines form a subsequence of the processed
lines). -/
theorem c3_count_and_order (Req : String → Except String ReqParsed) (text : String) :
    (parse_requirements_text Req text).length + (parseRun Req text).skipped
        = (processLines text).length ∧
    (parse_requirements_text Req text).length
        = (processLines text).length - (parseRun Req text).skipped ∧
    List.Sublist ((parse_requirements_text Req text).map DepRecord.original)
      (processLines text) := by
  obtain ⟨hcount, suffix, hdeps, hsub⟩ :=
    parse_fold_shape Req (processLines text) ⟨[], [], 0⟩
  have hc : (parse_requirements_text Req text).length + (parseRun Req text).skipped
      = (processLines text).length := by
    simpa [parse_requirements_text, parseRun] using hcount
  refine ⟨hc, by omega, ?_⟩
  have hdeq : parse_requirements_text Req text = suffix := by
    simpa [parse_requirements_text, parseRun] using hdeps
  rw [hdeq]
  exact hsub

/-- C5 counterexample: on the malformed line `>==1` (on which the
requirement grammar fails), the parser's recovered package is `>` —
produced by the sequential splits of the source — whereas truncation at
the first occurrence of any of `==`, `>=`, `<=`, `[` (the `>=` at
position 0) yields the empty string.  The record's package is therefore
not the first-occurrence truncation the claim describes. -/
theorem c5_counterexample_truncation :
    pkgRequirement ">==1" =
      Except.error "Expected package name at the start of dependency specifier: >==1" ∧
    (parse_requirements_text pkgRequirement ">==1").map DepRecord.package = [">"] ∧
    specTruncateAtFirst ">==1" = "" ∧
    ((">" : String) ≠ "") :=
  ⟨rfl, rfl, rfl, by decide⟩

/-- C5 (amended): the parser absorbs every grammar failure: for every line
on which the requirement grammar fails, the loop body appends exactly one
record whose package is obtained by splitting the line at `==` and keeping
the prefix, then likewise at `>=`, then `<=`, then `[`, finally stripping
whitespace (truncation at the first occurrence of each token in that
order); its specifier, extras and marker are empty and its conflict is
`Parse error: ` followed by the error text. -/
theorem c5_parse_failure_recovery (Req : String → Except String ReqParsed)
    (st : ParseState) (line e : String) (h : Req line = .error e) :
    lineStep Req st line =
      { st with deps := st.deps ++
          [{ package := truncAt line, specifier := "", extras := [], marker := "",
             original := line, conflict := some ("Parse error: " ++ e) }] } := by
  simp [lineStep, h]

/-- Witness for C5: the malformed line `not a valid req !!!` appends one
record with the truncated package and a `Parse error:` conflict. -/
theorem c5_parse_failure_recovery_witness :
    lineStep pkgRequirement ⟨[], [], 0⟩ "not a valid req !!!" =
      ⟨[⟨"not a valid req !!!", "", [], "", "not a valid req !!!",
          some "Parse error: Invalid requirement, parse error at specifier: a valid req !!!"⟩],
        [], 0⟩ := by
  rw [c5_parse_failure_recovery pkgRequirement ⟨[], [], 0⟩ "not a valid req !!!"
    "Invalid requirement, parse error at specifier: a valid req !!!" rfl]
  rfl

theorem plTorch_both_present (nodes : List (String × GraphNode)) (i : Issue)
    (h : i ∈ plTorchIssues nodes) :
    i.packages = some ["pytorch-lightning", "torch"] ∧
    (dictFind nodes "pytorch-lightning").isSome = true ∧
    (dictFind nodes "torch").isSome = true := by
  unfold plTorchIssues at h
  split at h
  next pl t h1 h2 =>
    split at h
    · rw [List.mem_singleton] at h
      subst h
      exact ⟨rfl, by rw [h1]; rfl, by rw [h2]; rfl⟩
    · simp at h
  next => simp at h

theorem fastapiPydantic_both_present (nodes : List (String × GraphNode)) (i : Issue)
    (h : i ∈ fastapiPydanticIssues nodes) :
    i.packages = some ["fastapi", "pydantic"] ∧
    (dictFind nodes "fastapi").isSome = true ∧
    (dictFind nodes "pydantic").isSome = true := by
  unfold fastapiPydanticIssues at h
  split at h
  next fa pd h1 h2 =>
    split at h
    · rw [List.mem_singleton] at h
      subst h
      exact ⟨rfl, by rw [h1]; rfl, by rw [h2]; rfl⟩
    · simp at h
  next => simp at h

theorem tfKeras_both_present (nodes : List (String × GraphNode)) (i : Issue)
    (h : i ∈ tfKerasIssues nodes) :
    i.packages = some ["tensorflow", "keras"] ∧
    (dictFind nodes "tensorflow").isSome = true ∧
    (dictFind nodes "keras").isSome = true := by
  unfold tfKerasIssues at h
  split at h
  next tf ke h1 h2 =>
    split at h
    · rw [List.mem_singleton] at h
      subst h
      exact ⟨rfl, by rw [h1]; rfl, by rw [h2]; rfl⟩
    · simp at h
  next => simp at h

/-- C6: every `version_incompatibility` issue names only packages present
as node keys of the graph (a pairwise rule fires only when both named
packages are nodes); concretely, records `pytorch-lightning ==2.1.0` and
`torch ==1.8.0` make `check_compatibility` return `all_clear = false` with
exactly the high-severity `version_incompatibility` issue naming both
packages, while `torch ==2.1.0` instead yields no issue at all. -/
theorem c6_pairwise_rule_firing :
    (∀ (graph : DepGraph) (i : Issue), i ∈ (check_compatibility graph).2 →
      i.type = some "version_incompatibility" →
      ∀ p ∈ issuePackages i, (dictFind graph.nodes p).isSome = true) ∧
    check_compatibility (build_dependency_graph
      [⟨"pytorch-lightning", "==2.1.0", [], "", "pytorch-lightning==2.1.0", none⟩,
       ⟨"torch", "==1.8.0", [], "", "torch==1.8.0", none⟩]) =
      (false,
       [{ type := some "version_incompatibility", package := none,
          packages := some ["pytorch-lightning", "torch"],
          message := some "pytorch-lightning>=2.0 requires torch>=2.0, but torch<2.0 is specified",
          severity := some "high",
          details := some [("pytorch-lightning", "==2.1.0"), ("torch", "==1.8.0")] }]) ∧
    check_compatibility (build_dependency_graph
      [⟨"pytorch-lightning", "==2.1.0", [], "", "pytorch-lightning==2.1.0", none⟩,
       ⟨"torch", "==2.1.0", [], "", "torch==2.1.0", none⟩]) = (true, []) := by
  refine ⟨?_, rfl, rfl⟩
  intro graph i hmem htype p hp
  simp only [check_compatibility] at hmem
  rcases List.mem_append.mp hmem with hmem' | htk
  rcases List.mem_append.mp hmem' with hmem'' | hfa
  rcases List.mem_append.mp hmem'' with hdup | hpl
  · obtain ⟨c, hc, rfl⟩ := List.mem_map.mp hdup
    simp [dupIssue] at htype
  · obtain ⟨hpk, h1, h2⟩ := plTorch_both_present graph.nodes i hpl
    simp only [issuePackages, hpk] at hp
    rcases List.mem_pair.mp hp with rfl | rfl
    · exact h1
    · exact h2
  · obtain ⟨hpk, h1, h2⟩ := fastapiPydantic_both_present graph.nodes i hfa
    simp only [issuePackages, hpk] at hp
    rcases List.mem_pair.mp hp with rfl | rfl
    · exact h1
    · exact h2
  · obtain ⟨hpk, h1, h2⟩ := tfKeras_both_present graph.nodes i htk
    simp only [issuePackages, hpk] at hp
    rcases List.mem_pair.mp hp with rfl | rfl
    · exact h1
    · exact h2

/-- Witness for C6: applying the rule-firing theorem to the concrete
conflicting graph shows `torch` is a node key there. -/
theorem c6_pairwise_rule_firing_witness :
    (dictFind (build_dependency_graph
      [⟨"pytorch-lightning", "==2.1.0", [], "", "pytorch-lightning==2.1.0", none⟩,
       ⟨"torch", "==1.8.0", [], "", "torch==1.8.0", none⟩]).nodes "torch").isSome = true :=
  c6_pairwise_rule_firing.1
    (build_dependency_graph
      [⟨"pytorch-lightning", "==2.1.0", [], "", "pytorch-lightning==2.1.0", none⟩,
       ⟨"torch", "==1.8.0", [], "", "torch==1.8.0", none⟩])
    { type := some "version_incompatibility", package := none,
      packages := some ["pytorch-lightning", "torch"],
      message := some "pytorch-lightning>=2.0 requires torch>=2.0, but torch<2.0 is specified",
      severity := some "high",
      details := some [("pytorch-lightning", "==2.1.0"), ("torch", "==1.8.0")] }
    (by decide) rfl "torch" (by decide)

theorem call_llm_netFails (f : Bool) (net : String → NetResult) (prompt : String)
    (h : netFails (net prompt) = true) :
    call_llm f net prompt = (fallback_explanation prompt, true) := by
  unfold call_llm
  cases hr : net prompt with
  | exn msg => rfl
  | resp status body =>
    rw [hr] at h
    by_cases hs : (status == 200) = true
    · cases body with
      | jsonError => simp [hs]
      | nonListJson => simp [hs]
      | listJson items =>
        cases items with
        | nil => simp [hs]
        | cons item rest =>
          cases item with
          | notDict => simp [hs]
          | withoutText => simp [hs]
          | withText s =>
            have hempty : strIsEmpty s = true := by
              simpa [netFails, hs] using h
            simp [hs, hempty]
    · have hs' : (status == 200) = false := by
        simpa using hs
      simp [hs']

/-- C7: whatever way the external call fails (exception, non-success
status, malformed body, missing or empty generated text),
`generate_explanation` returns normally with the deterministic fallback
text for the issue's prompt signature, and any two failing runs on the
same issue and record set return identical results. -/
theorem c7_failure_absorbed (f1 f2 : Bool) (net1 net2 : String → NetResult)
    (conflict : Issue) (dependencies : List DepRecord)
    (h1 : netFails (net1 (create_prompt conflict dependencies)) = true)
    (h2 : netFails (net2 (create_prompt conflict dependencies)) = true) :
    (generate_explanation f1 net1 conflict dependencies).explanation =
      fallback_explanation (create_prompt conflict dependencies) ∧
    generate_explanation f1 net1 conflict dependencies =
      generate_explanation f2 net2 conflict dependencies := by
  have e1 := call_llm_netFails f1 net1 (create_prompt conflict dependencies) h1
  have e2 := call_llm_netFails f2 net2 (create_prompt conflict dependencies) h2
  constructor
  · simp [generate_explanation, e1]
  · simp [generate_explanation, e1, e2]

/-- Witness for C7: a timeout-style exception and a 503 response with a
non-list body both yield the fallback text and equal results. -/
theorem c7_failure_absorbed_witness :
    (generate_explanation true (fun _ => NetResult.exn "timeout")
        ⟨some "duplicate", some "pandas", none, some "Conflict in pandas: dup",
          some "high", none⟩ []).explanation =
      fallback_explanation (create_prompt
        ⟨some "duplicate", some "pandas", none, some "Conflict in pandas: dup",
          some "high", none⟩ []) ∧
    generate_explanation true (fun _ => NetResult.exn "timeout")
        ⟨some "duplicate", some "pandas", none, some "Conflict in pandas: dup",
          some "high", none⟩ [] =
      generate_explanation false (fun _ => NetResult.resp 503 RespBody.nonListJson)
        ⟨some "duplicate", some "pandas", none, some "Conflict in pandas: dup",
          some "high", none⟩ [] :=
  c7_failure_absorbed true false (fun _ => NetResult.exn "timeout")
    (fun _ => NetResult.resp 503 RespBody.nonListJson)
    ⟨some "duplicate", some "pandas", none, some "Conflict in pandas: dup",
      some "high", none⟩ [] rfl rfl

set_option maxRecDepth 8192 in
/-- C1 counterexample: with `use_local_llm = false` and a succeeding
network oracle, `generate_explanation` still issues the network call
(second component of `call_llm` is `true`) and returns the service text
rather than the deterministic fallback — the flag does not short-circuit
the network call. -/
theorem c1_counterexample_flag_ignored :
    (generate_explanation false
        (fun _ => NetResult.resp 200 (RespBody.listJson [JItem.withText "A service answer."]))
        ⟨some "duplicate", some "pandas", none, some "Conflict in pandas: dup",
          some "high", none⟩ []).explanation = "A service answer." ∧
    ("A service answer." ≠ fallback_explanation (create_prompt
        ⟨some "duplicate", some "pandas", none, some "Conflict in pandas: dup",
          some "high", none⟩ [])) ∧
    (call_llm false
        (fun _ => NetResult.resp 200 (RespBody.listJson [JItem.withText "A service answer."]))
        (create_prompt
          ⟨some "duplicate", some "pandas", none, some "Conflict in pandas: dup",
            some "high", none⟩ [])).2 = true :=
  ⟨rfl, by decide, rfl⟩

/-- C1 (amended): `use_local_llm` is stored by the engine but read
nowhere: for every flag value the network call is issued, the result does
not depend on the flag, and the deterministic fallback is returned exactly
on the failing outcomes. -/
theorem c1_flag_never_consulted (use_local_llm : Bool) (net : String → NetResult)
    (conflict : Issue) (dependencies : List DepRecord) :
    (call_llm use_local_llm net (create_prompt conflict dependencies)).2 = true ∧
    generate_explanation use_local_llm net conflict dependencies =
      generate_explanation true net conflict dependencies ∧
    (netFails (net (create_prompt conflict dependencies)) = true →
      (generate_explanation use_local_llm net conflict dependencies).explanation =
        fallback_explanation (create_prompt conflict dependencies)) := by
  refine ⟨rfl, rfl, fun h => ?_⟩
  simp [generate_explanation,
    call_llm_netFails use_local_llm net (create_prompt conflict dependencies) h]

/-- Witness for C1: with the flag false and a failing network, the call is
still issued and the fallback is returned. -/
theorem c1_flag_never_consulted_witness :
    (call_llm false (fun _ => NetResult.exn "timeout")
      (create_prompt
        ⟨some "duplicate", some "pandas", none, some "Conflict in pandas: dup",
          some "high", none⟩ [])).2 = true ∧
    (generate_explanation false (fun _ => NetResult.exn "timeout")
        ⟨some "duplicate", some "pandas", none, some "Conflict in pandas: dup",
          some "high", none⟩ []).explanation =
      fallback_explanation (create_prompt
        ⟨some "duplicate", some "pandas", none, some "Conflict in pandas: dup",
          some "high", none⟩ []) :=
  ⟨(c1_flag_never_consulted false (fun _ => NetResult.exn "timeout")
      ⟨some "duplicate", some "pandas", none, some "Conflict in pandas: dup",
        some "high", none⟩ []).1,
   (c1_flag_never_consulted false (fun _ => NetResult.exn "timeout")
      ⟨some "duplicate", some "pandas", none, some "Conflict in pandas: dup",
        some "high", none⟩ []).2.2 rfl⟩

theorem filterMap_if_eq {α β : Type} (p : α → Bool) (f : α → β) (l : List α) :
    (l.filterMap fun s => if p s then some (f s) else none) = (l.filter p).map f := by
  induction l with
  | nil => rfl
  | cons a as ih =>
    cases h : p a <;> simp [List.filterMap_cons, List.filter_cons, h, ih]

theorem take_two_isEmpty {α : Type} (l : List α) : (l.take 2).isEmpty = l.isEmpty := by
  cases l <;> rfl

theorem map_isEmpty {α β : Type} (f : α → β) (l : List α) :
    (l.map f).isEmpty = l.isEmpty := by
  cases l <;> rfl

theorem extract_why_eq_spec (text : String) :
    extract_why text = spec_extract whyWords "Version constraints are incompatible." text := by
  simp only [extract_why, spec_extract, filterMap_if_eq, List.map_take,
    take_two_isEmpty, map_isEmpty]

theorem extract_fix_eq_spec (text : String) :
    extract_fix text =
      spec_extract fixWords "Adjust version constraints to compatible versions." text := by
  simp only [extract_fix, spec_extract, filterMap_if_eq, List.map_take,
    take_two_isEmpty, map_isEmpty]

/-- C8: for every explanation text — and in particular for the text held in
any `generate_explanation` result, service-produced or fallback —
`why_it_happens` is exactly the join (separator `. `, trailing `.`) of the
first two `.`-separated sentences containing one of the why-trigger words,
with the literal default `Version constraints are incompatible.` when none
match, and `how_to_fix` is the analogous join over the fix-trigger words
defaulting to `Adjust version constraints to compatible versions.`. -/
theorem c8_keyword_extraction (use_local_llm : Bool) (net : String → NetResult)
    (conflict : Issue) (dependencies : List DepRecord) (text : String) :
    extract_why text = spec_extract whyWords "Version constraints are incompatible." text ∧
    extract_fix text =
      spec_extract fixWords "Adjust version constraints to compatible versions." text ∧
    (generate_explanation use_local_llm net conflict dependencies).why_it_happens =
      spec_extract whyWords "Version constraints are incompatible."
        (generate_explanation use_local_llm net conflict dependencies).explanation ∧
    (generate_explanation use_local_llm net conflict dependencies).how_to_fix =
      spec_extract fixWords "Adjust version constraints to compatible versions."
        (generate_explanation use_local_llm net conflict dependencies).explanation := by
  refine ⟨extract_why_eq_spec text, extract_fix_eq_spec text, ?_, ?_⟩
  · rw [← extract_why_eq_spec]
    rfl
  · rw [← extract_fix_eq_spec]
    rfl

theorem strToLower_ne_empty (s : String) (h : strIsEmpty s = false) :
    strToLower s ≠ "" := by
  intro hcontra
  have hdata : s.data.map Char.toLower = [] := congrArg String.data hcontra
  rw [List.map_eq_nil_iff] at hdata
  simp [strIsEmpty, hdata] at h

theorem libStep_packages_nonempty (acc : List DepRecord) (line : String)
    (hacc : ∀ r ∈ acc, r.package ≠ "") :
    ∀ r ∈ libStep acc line, r.package ≠ "" := by
  intro r hr
  simp only [libStep] at hr
  split at hr
  · exact hacc r hr
  · split at hr
    · exact hacc r hr
    · next hne =>
      rcases List.mem_append.mp hr with hold | hnew
      · exact hacc r hold
      · rw [List.mem_singleton] at hnew
        subst hnew
        exact strToLower_ne_empty _ (by simpa using hne)

theorem foldl_libStep_packages_nonempty :
    ∀ (lines : List String) (acc : List DepRecord),
      (∀ r ∈ acc, r.package ≠ "") →
      ∀ r ∈ lines.foldl libStep acc, r.package ≠ ""
  | [], acc, hacc => hacc
  | l :: ls, acc, hacc => by
    rw [List.foldl_cons]
    exact foldl_libStep_packages_nonempty ls (libStep acc l)
      (libStep_packages_nonempty acc l hacc)

/-- C10: every record produced by `parse_library_list` has a non-empty
package; a line whose name portion is empty yields no record at all
(here `==1.0` yields the empty list), whereas the main parser on the same
line still emits a record with an empty package. -/
theorem c10_library_list_nonempty (text : String) (r : DepRecord)
    (hr : r ∈ parse_library_list text) :
    r.package ≠ "" ∧
    parse_library_list "==1.0" = [] ∧
    (parse_requirements_text pkgRequirement "==1.0").map DepRecord.package = [""] := by
  refine ⟨?_, rfl, rfl⟩
  unfold parse_library_list at hr
  exact foldl_libStep_packages_nonempty _ [] (by intro r hmem; cases hmem) r hr

/-- Witness for C10: the record parsed from the single line `numpy` has
the non-empty package `numpy`. -/
theorem c10_library_list_nonempty_witness :
    ({ package := "numpy", specifier := "", extras := [], marker := "",
       original := "numpy", conflict := none } : DepRecord).package ≠ "" ∧
    parse_library_list "==1.0" = [] ∧
    (parse_requirements_text pkgRequirement "==1.0").map DepRecord.package = [""] :=
  c10_library_list_nonempty "numpy"
    { package := "numpy", specifier := "", extras := [], marker := "",
      original := "numpy", conflict := none } (by decide)

end DepAssist
